import Mathlib

/-!
Shallow embedding of the `UL_teacher_helper` repository (Python) in Lean 4.

The repository scaffolds directory trees for university course administration.
Its state is a filesystem (directories plus text files), the global state of
Python's `logging` module (which file `basicConfig` has bound, if any), and
per-object attribute records (`Module`, `Assessment`).  Every guarded method of
the source is translated below as an explicit state-passing function; Python
exceptions become explicit result constructors.
-/

namespace ULTH

/-- Character constants, built via code points so the development stays free of
escape sequences: `q` is the single-quote character used by the log marker
f-strings, `nl` a newline, `tab` a tab. -/
def q : String := (Char.ofNat 39).toString

def nl : String := (Char.ofNat 10).toString

def tab : String := (Char.ofNat 9).toString

/-- A filesystem path, as its list of segments relative to an unnamed root
(Python `pathlib.Path`; `p / s` is `p ++ [s]`). -/
abbrev Path := List String

/-- Filesystem model: which directories exist, and the text content of each
existing file. -/
structure FS where
  dirs : Path → Bool
  files : Path → Option String

/-- The empty filesystem. -/
def emptyFS : FS := { dirs := fun _ => false, files := fun _ => none }

def readFile (fs : FS) (p : Path) : Option String := fs.files p

def fileExists (fs : FS) (p : Path) : Bool := (fs.files p).isSome

def dirExists (fs : FS) (p : Path) : Bool := fs.dirs p

/-- Writing a file (Python `open(p, 'w')` then write): truncates/creates. -/
def writeFile (fs : FS) (p : Path) (c : String) : FS :=
  { fs with files := fun r => if r == p then some c else fs.files r }

/-- Appending to a file, creating it when absent (the effect of a configured
`logging` handler emitting a record). -/
def appendFile (fs : FS) (p : Path) (c : String) : FS :=
  match readFile fs p with
  | some old => writeFile fs p (old ++ c)
  | none => writeFile fs p c

/-- All strict prefixes of a path: the ancestor directories `mkdir(parents=True)`
creates when missing. -/
def strictPrefixes : Path → List Path
  | [] => []
  | s :: rest => [] :: (strictPrefixes rest).map (fun r => s :: r)

/-- `pathlib.Path.mkdir(parents=True, exist_ok=False)`: raises `FileExistsError`
when the directory itself already exists, otherwise creates it together with
any missing ancestors. -/
def mkdirP (fs : FS) (p : Path) : Except Unit FS :=
  if fs.dirs p then Except.error ()
  else Except.ok
    { fs with dirs := fun r => r == p || (strictPrefixes p).contains r || fs.dirs r }

/-- Global state of Python's `logging` module: the file, if any, that
`logging.basicConfig(filename=...)` has bound the root logger to. -/
structure World where
  fs : FS
  logCfg : Option Path

/-- `logging.basicConfig(filename=p, level=INFO)`: binds the root logger to `p`
only when no configuration happened before; otherwise it is a no-op. -/
def basicConfig (w : World) (p : Path) : World :=
  match w.logCfg with
  | some _ => w
  | none => { w with logCfg := some p }

/-- Prefix the default `logging` record format puts before each message. -/
def infoPfx : String := "INFO:root:"

/-- `logging.info(msg)`: when the root logger is bound to a file, appends the
formatted record there; with no configuration the record goes to stderr and no
file changes. -/
def logInfo (w : World) (msg : String) : World :=
  match w.logCfg with
  | some p => { w with fs := appendFile w.fs p (infoPfx ++ msg ++ nl) }
  | none => w

/-- Name of the per-directory log file used by the packaged implementation. -/
def logFileName : String := "module_log.txt"

/-- Substring test on character lists, by scanning every suffix. -/
def isSubstrAux (pat : List Char) : List Char → Bool
  | [] => pat.isPrefixOf []
  | c :: rest => pat.isPrefixOf (c :: rest) || isSubstrAux pat rest

/-- Python's `pat in s` on strings. -/
def strContains (s pat : String) : Bool := isSubstrAux pat.data s.data

/-- The pattern `_check_method_execution` searches the log for:
`f"'{method_name}' method deployed on"`. -/
def markerPat (method_name : String) : String :=
  q ++ method_name ++ q ++ " method deployed on"

/-- `Module._check_method_execution` (packaged implementation,
`src/ul_teacher_helper/Module/Module.py` lines 244-260): reads
`self.root / 'module_log.txt'` if it exists and searches it for the marker
pattern of `method_name`. -/
def check_method_execution (fs : FS) (root : Path) (method_name : String) : Bool :=
  match readFile fs (root ++ [logFileName]) with
  | some log_contents => strContains log_contents (markerPat method_name)
  | none => false

/-- Attribute record of a `Module` instance (fields set by `Module.__init__`). -/
structure ModuleState where
  name : String
  code : String
  year : String
  semester : String
  leader : String
  root : Path

/-- Default `sub_dirs` argument of `Module.structure`. -/
def default_sub_dirs : List String :=
  ["Teaching Material", "Assessments", "Module Documents"]

/-- First record `Module.structure` logs:
`f"Module {name} {code} created at {ts}:\nCreated Sub_directories:\n{sub_dirs_str}"`
with `sub_dirs_str = '\n\t'.join(sub_dirs)`. -/
def createdMsg (name code ts : String) (sub_dirs : List String) : String :=
  "Module " ++ name ++ " " ++ code ++ " created at " ++ ts ++ ":" ++ nl ++
    "Created Sub_directories:" ++ nl ++ String.intercalate (nl ++ tab) sub_dirs

/-- Second record `Module.structure` logs:
`f"'structure' method deployed on {ts}."`. -/
def deployedMsgStructure (ts : String) : String :=
  q ++ "structure" ++ q ++ " method deployed on " ++ ts ++ "."

/-- The value `Module.structure` reassigns `self.root` to (line 65):
`self.root / f'{self.code} {self.semester} {self.year}'`. -/
def moduleRoot2 (m : ModuleState) : Path :=
  m.root ++ [m.code ++ " " ++ m.semester ++ " " ++ m.year]

/-- Outcome of `Module.structure` / `Assessment.structure`. -/
inductive StructResult
  | runtimeError
  | printedExists
  | mkdirError
  | ok
  deriving DecidableEq

/-- Creation of the subdirectories in order; on a `FileExistsError` the loop
raises, leaving the directories created so far in place (carried on the error
branch). -/
def mkdirSubdirs (root2 : Path) : FS → List String → Except FS FS
  | fs, [] => Except.ok fs
  | fs, d :: rest =>
    match mkdirP fs (root2 ++ [d]) with
    | Except.error _ => Except.error fs
    | Except.ok fs2 => mkdirSubdirs root2 fs2 rest

/-- `Module.structure` (packaged implementation, lines 48-91).  Raises
`RuntimeError` when the guard reports a prior run; otherwise reassigns
`self.root` to `root / f'{code} {semester} {year}'`, attempts to create it
(printing and returning on `FileExistsError`), creates the subdirectories,
configures logging to the new log file and logs the two records.  The
nondeterministic `datetime.now()` values are passed in as `ts1`, `ts2`. -/
def Module_structure (w : World) (m : ModuleState) (sub_dirs : List String)
    (ts1 ts2 : String) : StructResult × World × ModuleState :=
  if check_method_execution w.fs m.root "structure" then
    (StructResult.runtimeError, w, m)
  else
    let root2 := moduleRoot2 m
    match mkdirP w.fs root2 with
    | Except.error _ => (StructResult.printedExists, w, { m with root := root2 })
    | Except.ok fs1 =>
      match mkdirSubdirs root2 fs1 sub_dirs with
      | Except.error fsPartial =>
        (StructResult.mkdirError, { w with fs := fsPartial }, { m with root := root2 })
      | Except.ok fs2 =>
        let w1 := basicConfig { w with fs := fs2 } (root2 ++ [logFileName])
        let w2 := logInfo w1 (createdMsg m.name m.code ts1 sub_dirs)
        let w3 := logInfo w2 (deployedMsgStructure ts2)
        (StructResult.ok, w3, { m with root := root2 })

/-- Decimal rendering of a nonnegative Python integer, as `f'{week}'` produces
it: most-significant digit first, with `'0'` for zero.  Built on `Nat.digits`
(little-endian) and the standard digit characters. -/
def pyStrNat (n : Nat) : String :=
  if n = 0 then String.mk [Nat.digitChar 0]
  else String.mk (((Nat.digits 10 n).map Nat.digitChar).reverse)

/-- Folder name chosen by `Module.teaching_structure` for week `week`:
`f'Week {week}'`, or `f'Week {week} - {topics[week - 1]}'` when a topics list
was supplied. -/
def mkWeekName (week : Nat) (topics : List String) : String :=
  if topics = [] then "Week " ++ pyStrNat week
  else "Week " ++ pyStrNat week ++ " - " ++ topics.getD (week - 1) ""

/-- Record `Module.teaching_structure` logs (no trailing period in the source):
`f"'teaching_structure' method deployed on {ts}"`. -/
def deployedMsgTeaching (ts : String) : String :=
  q ++ "teaching_structure" ++ q ++ " method deployed on " ++ ts

/-- Outcome of `Module.teaching_structure`. -/
inductive TeachResult
  | runtimeError
  | assertError
  | mkdirError
  | ok
  deriving DecidableEq

/-- The week-folder creation loop `for week in range(1, weeks + 1)`, creating
`count` folders starting at index `week`; a `FileExistsError` raises, leaving
the folders created so far in place. -/
def mkWeekDirs (material_dir : Path) (topics : List String) :
    FS → Nat → Nat → Except FS FS
  | fs, _, 0 => Except.ok fs
  | fs, week, count + 1 =>
    match mkdirP fs (material_dir ++ [mkWeekName week topics]) with
    | Except.error _ => Except.error fs
    | Except.ok fs2 => mkWeekDirs material_dir topics fs2 (week + 1) count

/-- `Module.teaching_structure` (lines 93-142).  Guard check first, then the
two `assert` statements (`weeks > 0`; when `topics` is non-empty,
`len(topics) == weeks`), then the creation loop, then the log record.  `weeks`
is an `Int` since Python accepts negative week counts at the call site. -/
def Module_teaching_structure (w : World) (m : ModuleState) (weeks : Int)
    (topics : List String) (ts : String) : TeachResult × World :=
  let material_dir := m.root ++ ["Teaching Material"]
  if check_method_execution w.fs m.root "teaching_structure" then
    (TeachResult.runtimeError, w)
  else if weeks ≤ 0 then (TeachResult.assertError, w)
  else if topics ≠ [] ∧ (topics.length : Int) ≠ weeks then (TeachResult.assertError, w)
  else
    match mkWeekDirs material_dir topics w.fs 1 weeks.toNat with
    | Except.error fsPartial => (TeachResult.mkdirError, { w with fs := fsPartial })
    | Except.ok fs2 => (TeachResult.ok, logInfo { w with fs := fs2 } (deployedMsgTeaching ts))

/-- Python `Path.name`: the final path component. -/
def pathName (p : Path) : String := p.getLastD ""

/-- Whitespace characters Python's `str.strip()` removes. -/
def isPySpace (c : Char) : Bool :=
  c == Char.ofNat 32 || c == Char.ofNat 9 || c == Char.ofNat 10 ||
    c == Char.ofNat 13 || c == Char.ofNat 11 || c == Char.ofNat 12

/-- Python `str.strip()`: drops leading and trailing whitespace. -/
def pyStrip (s : String) : String :=
  String.mk (((s.data.dropWhile isPySpace).reverse.dropWhile isPySpace).reverse)

/-- Python `str.lower()` (over the ASCII range the program uses). -/
def pyLower (s : String) : String := String.mk (s.data.map Char.toLower)

/-- Sequential `shutil.copy(document, documents_dir / document.name)` over the
batch: each destination file receives the source file content (an absent
source is read as empty; the claims only exercise existing sources). -/
def copyAll (dir : Path) : FS → List Path → FS
  | fs, [] => fs
  | fs, doc :: rest =>
    copyAll dir (writeFile fs (dir ++ [pathName doc]) ((fs.files doc).getD "")) rest

/-- Record `Module.copy_documents` logs. -/
def deployedMsgCopy (ts : String) (documents : List Path) : String :=
  q ++ "copy_documents" ++ q ++ " method deployed on " ++ ts ++ nl ++
    "Copied documents: " ++ String.intercalate ", " (documents.map pathName)

/-- Observable outcome of `Module.copy_documents`: whether the confirmation
prompt was shown, whether the batch was canceled, and the resulting state. -/
structure CopyOutcome where
  prompted : Bool
  canceled : Bool
  world : World

/-- `Module.copy_documents` (lines 150-198).  A single incoming path is
normalized to a one-element list by the `isinstance` branch, so the embedding
takes the list directly.  The guard result and the collision list decide
whether the whole-batch confirmation prompt fires; `answer` is what `input()`
would return when prompted (`.strip().lower() or 'n'`, then compared with
`'y'`). -/
def Module_copy_documents (w : World) (m : ModuleState) (documents : List Path)
    (sub_dir_name : String) (answer : String) (ts : String) : CopyOutcome :=
  let documents_dir := m.root ++ [sub_dir_name]
  let method_executed := check_method_execution w.fs m.root "copy_documents"
  let existing_files :=
    (documents.filter (fun doc => fileExists w.fs (documents_dir ++ [pathName doc]))).map pathName
  if !existing_files.isEmpty && method_executed then
    let confirmation := if pyLower (pyStrip answer) = "" then "n" else pyLower (pyStrip answer)
    if pyLower (pyStrip confirmation) ≠ "y" then
      { prompted := true, canceled := true, world := w }
    else
      { prompted := true, canceled := false,
        world := logInfo { w with fs := copyAll documents_dir w.fs documents }
          (deployedMsgCopy ts documents) }
  else
    { prompted := false, canceled := false,
      world := logInfo { w with fs := copyAll documents_dir w.fs documents }
        (deployedMsgCopy ts documents) }

/-! ### The `Assessment` class (`src/ul_teacher_helper/Assessment/Assessment.py`) -/

/-- Python errors surfaced by the embedded constructors/methods. -/
inductive PyErr
  | typeError
  | runtimeError
  deriving DecidableEq

/-- Parameters of `Module.__init__` after `self`, paired with whether each has
a default value (`root`, `exams`, `coursework` do; the first five do not). -/
def Module_init_sig : List (String × Bool) :=
  [("name", false), ("code", false), ("year", false), ("semester", false),
   ("leader", false), ("root", true), ("exams", true), ("coursework", true)]

/-- Required parameters of a signature: those without a default. -/
def requiredParams (sig : List (String × Bool)) : List String :=
  (sig.filter (fun p => !p.2)).map (fun p => p.1)

/-- Python positional-call binding: the required parameters left unbound after
`supplied` positional arguments; a non-empty result is a
`TypeError: missing required positional arguments`. -/
def missingArgs (sig : List (String × Bool)) (supplied : Nat) : List String :=
  (requiredParams sig).drop supplied

/-- Attribute record of an `Assessment` instance, restricted to the fields its
methods read (`assessment_type`, `name`, `code`, `root`); the remaining
metadata fields (due date, weight, year) are never consulted by the embedded
operations. -/
structure AssessmentState where
  assessment_type : String
  name : String
  code : String
  root : Path

/-- Stand-in for `pathlib.Path.cwd()`, the default `root` of
`Module.__init__`: the process working directory, an arbitrary fixed path. -/
def pyCwd : Path := []

/-- `Assessment.__init__` (lines 15-44).  Its first statement is
`super().__init__(module_name, module_code, module_leader)`: three positional
arguments against `Module.__init__`, whose signature `Module_init_sig`
requires five, so Python raises `TypeError` before any attribute is set.  The
success branch below is the faithful continuation (never reached). -/
def Assessment_init (assessment_type name due_date module_name module_code
    module_leader percentage_of_module module_year : String) :
    Except PyErr AssessmentState :=
  if missingArgs Module_init_sig 3 ≠ [] then Except.error PyErr.typeError
  else Except.ok
    { assessment_type := assessment_type, name := name, code := module_code, root := pyCwd }

/-- The value `Assessment.structure` reassigns `self.root` to (line 59):
`self.root / 'Assessment' / f"{self.name} ({self.assessment_type})"`. -/
def assessmentRoot2 (a : AssessmentState) : Path :=
  a.root ++ ["Assessment", a.name ++ " (" ++ a.assessment_type ++ ")"]

/-- Record `Assessment.structure` logs. -/
def deployedMsgAStructure (ts : String) : String :=
  q ++ "structure" ++ q ++ " method deployed on " ++ ts ++ "."

/-- `Assessment.structure` (lines 46-83): same shape as `Module.structure`,
with the root reassigned to `self.root / 'Assessment' / f"{name} ({type})"`
and the single subdirectory `'Assessment Documents and Templates'`. -/
def Assessment_structure (w : World) (a : AssessmentState) (ts1 ts2 : String) :
    StructResult × World × AssessmentState :=
  if check_method_execution w.fs a.root "structure" then
    (StructResult.runtimeError, w, a)
  else
    let root2 := assessmentRoot2 a
    match mkdirP w.fs root2 with
    | Except.error _ => (StructResult.printedExists, w, { a with root := root2 })
    | Except.ok fs1 =>
      match mkdirSubdirs root2 fs1 ["Assessment Documents and Templates"] with
      | Except.error fsPartial =>
        (StructResult.mkdirError, { w with fs := fsPartial }, { a with root := root2 })
      | Except.ok fs2 =>
        let w1 := basicConfig { w with fs := fs2 } (root2 ++ [logFileName])
        let w2 := logInfo w1 (createdMsg a.name a.code ts1 ["Assessment Documents and Templates"])
        let w3 := logInfo w2 (deployedMsgAStructure ts2)
        (StructResult.ok, w3, { a with root := root2 })

/-- Record `Assessment.graders_list` logs. -/
def deployedMsgGraders (ts : String) : String :=
  q ++ "graders_list" ++ q ++ " method deployed on " ++ ts ++ "."

/-- Content the graders loop writes: `f'{grader}\n'` for each name in order. -/
def gradersContent (graders : List String) : String :=
  String.join (graders.map (fun g => g ++ nl))

/-- `Assessment.graders_list` (lines 87-110): guard check, then the roster is
written (mode `'w'`, truncating) to `self.root / 'Graders List.txt'`, the
record is logged, and the artifact path returned. -/
def Assessment_graders_list (w : World) (a : AssessmentState)
    (graders : List String) (ts : String) : Except PyErr (World × Path) :=
  if check_method_execution w.fs a.root "graders_list" then
    Except.error PyErr.runtimeError
  else
    let graders_list_path := a.root ++ ["Graders List.txt"]
    let fs2 := writeFile w.fs graders_list_path (gradersContent graders)
    let w2 := logInfo { w with fs := fs2 } (deployedMsgGraders ts)
    Except.ok (w2, graders_list_path)

/-- Splitting a character stream at newline characters. -/
def splitLinesAux : List Char → List Char → List (List Char)
  | acc, [] => [acc.reverse]
  | acc, c :: rest =>
    if c == Char.ofNat 10 then acc.reverse :: splitLinesAux [] rest
    else splitLinesAux (c :: acc) rest

/-- Reading the roster artifact back, one name per line (a line is a maximal
newline-free run; the final newline terminates the last name). -/
def readBackLines (s : String) : List String :=
  ((splitLinesAux [] s.data).map String.mk).dropLast

/-! ### The draft implementation (`src/src/Module/Module.py`)

The draft `Module` duplicates the packaged one except in one place: its
`_check_method_execution` reads `self.root / '.module_log.txt'` (leading dot),
while its `structure` still writes `self.root / 'module_log.txt'`. -/

/-- Log filename the draft guard reads (line 158 of the draft). -/
def draftLogFileName : String := ".module_log.txt"

/-- Draft `Module._check_method_execution` (draft lines 148-164): identical to
the packaged guard except for the filename it reads. -/
def draft_check_method_execution (fs : FS) (root : Path) (method_name : String) : Bool :=
  match readFile fs (root ++ [draftLogFileName]) with
  | some log_contents => strContains log_contents (markerPat method_name)
  | none => false

/-- Draft `Module.structure` (draft lines 48-91): textually identical to the
packaged `Module.structure` — including writing the log to `module_log.txt` —
except that the guard it consults is the draft one. -/
def draft_Module_structure (w : World) (m : ModuleState) (sub_dirs : List String)
    (ts1 ts2 : String) : StructResult × World × ModuleState :=
  if draft_check_method_execution w.fs m.root "structure" then
    (StructResult.runtimeError, w, m)
  else
    let root2 := moduleRoot2 m
    match mkdirP w.fs root2 with
    | Except.error _ => (StructResult.printedExists, w, { m with root := root2 })
    | Except.ok fs1 =>
      match mkdirSubdirs root2 fs1 sub_dirs with
      | Except.error fsPartial =>
        (StructResult.mkdirError, { w with fs := fsPartial }, { m with root := root2 })
      | Except.ok fs2 =>
        let w1 := basicConfig { w with fs := fs2 } (root2 ++ [logFileName])
        let w2 := logInfo w1 (createdMsg m.name m.code ts1 sub_dirs)
        let w3 := logInfo w2 (deployedMsgStructure ts2)
        (StructResult.ok, w3, { m with root := root2 })

/-- The marker-line append shared by the guarded methods: `record(X, ts)` is
the `logging.info(f"'{X}' method deployed on {ts}.")` call each method issues
after its side effects succeed. -/
def record_method (w : World) (method_name ts : String) : World :=
  logInfo w (q ++ method_name ++ q ++ " method deployed on " ++ ts ++ ".")

/-- Decimal digit test on characters, used to recover the week index from a
folder name. -/
def isDigitCh (c : Char) : Bool := decide (48 ≤ c.toNat) && decide (c.toNat ≤ 57)

/-- The folder names `teaching_structure` creates, in creation order. -/
def weekNames (weeks : Nat) (topics : List String) : List String :=
  (List.range weeks).map (fun j => mkWeekName (j + 1) topics)

/-- Sample fresh world used to instantiate theorems at concrete inputs. -/
def sampleWorld : World := { fs := emptyFS, logCfg := none }

/-- Sample module instance over a fresh root. -/
def sampleModule : ModuleState :=
  { name := "Software Engineering", code := "CS4013", year := "2024", semester := "SPR",
    leader := "Dr Smith", root := ["base"] }

/-- Sample assessment instance over a fresh root. -/
def sampleAssessment : AssessmentState :=
  { assessment_type := "Exam", name := "Midterm", code := "CS4013", root := ["somewhere"] }

/-- A world in which the target directory of `sampleModule`'s structuring
already exists on disk — carrying a log that records a completed `structure`
run — while no log exists at `sampleModule.root` itself, so the guard does not
fire. -/
def preExistingWorld : World :=
  { fs :=
      { dirs := fun p => p == moduleRoot2 sampleModule
      , files := fun p =>
          if p == moduleRoot2 sampleModule ++ [logFileName] then
            some (infoPfx ++ deployedMsgStructure "2023-09-01 09:00:00" ++ nl)
          else none }
  , logCfg := none }

/-- A world whose logging is already bound to a log file at the filesystem
root, used to exercise `record_method` directly. -/
def recordWorld : World := { fs := emptyFS, logCfg := some [logFileName] }

/-- An operation name crafted so that its own marker line embeds the marker
pattern of the distinct operation name `"a"`. -/
def embedName : String := "a" ++ q ++ " method deployed on 2024"

/-- A world in which the target directory of `sampleModule`'s structuring
already exists on disk but holds no log file. -/
def preExistingNoLogWorld : World :=
  { fs := { dirs := fun p => p == moduleRoot2 sampleModule, files := fun _ => none }
  , logCfg := none }

/-- A world whose log at `sampleModule`'s root already records a completed
`structure` run, so the guard fires. -/
def guardFiredWorld : World :=
  { fs := { dirs := fun _ => false
          , files := fun p =>
              if p == (["base", logFileName] : Path) then
                some (infoPfx ++ deployedMsgStructure "2023-09-01 09:00:00" ++ nl)
              else none }
  , logCfg := none }

/-- A world holding one source document at `src/f.txt` and nothing else. -/
def copySourceWorld : World :=
  { fs := { dirs := fun _ => false
          , files := fun p => if p == (["src", "f.txt"] : Path) then some "hello" else none }
  , logCfg := none }

/-- A world in which `copy_documents` has already run for `sampleModule` (its
marker is in the log), the destination already holds `f.txt`, and a source
`src/f.txt` with different content awaits copying — the prompting scenario. -/
def promptWorld : World :=
  { fs := { dirs := fun _ => false
          , files := fun p =>
              if p == (["base", logFileName] : Path) then
                some (infoPfx ++ q ++ "copy_documents" ++ q
                  ++ " method deployed on 2023-09-01" ++ nl)
              else if p == (["base", "Module Documents", "f.txt"] : Path) then some "old"
              else if p == (["src", "f.txt"] : Path) then some "new"
              else none }
  , logCfg := none }

/-! ### Supporting lemmas -/

theorem isSubstrAux_self (pat l2 : List Char) : isSubstrAux pat (pat ++ l2) = true := by
  cases h : pat ++ l2 with
  | nil =>
    have hp : pat = [] := by cases pat <;> simp_all
    subst hp
    simp [isSubstrAux, List.isPrefixOf]
  | cons c rest =>
    have hpre : pat.isPrefixOf (c :: rest) = true := by
      rw [← h]
      exact List.isPrefixOf_iff_prefix.mpr (List.prefix_append pat l2)
    rw [isSubstrAux, hpre, Bool.true_or]

theorem isSubstrAux_append (pat l2 : List Char) :
    ∀ l1, isSubstrAux pat (l1 ++ (pat ++ l2)) = true
  | [] => isSubstrAux_self pat l2
  | c :: l1 => by
    rw [List.cons_append, isSubstrAux, isSubstrAux_append pat l2 l1, Bool.or_true]

/-- A string whose character data decomposes around `pat.data` contains `pat`. -/
theorem strContains_embed {s pat : String} (pre post : List Char)
    (h : s.data = pre ++ (pat.data ++ post)) : strContains s pat = true := by
  unfold strContains
  rw [h]
  exact isSubstrAux_append pat.data post pre

theorem beq_append_singleton (r : Path) (s d : String) :
    ((r ++ [s]) == (r ++ [d])) = (s == d) := by
  by_cases h : s = d
  · subst h; simp
  · have h1 : ¬(r ++ [s] = r ++ [d]) := by
      intro hh
      exact h (by simpa using List.append_cancel_left hh)
    simp [h, h1]

theorem beq_append_singleton_self (r : Path) (s : String) :
    ((r ++ [s]) == r) = false := by
  have h1 : ¬(r ++ [s] = r) := by
    intro hh
    have := congrArg List.length hh
    simp at this
  simp [h1]

theorem length_lt_of_mem_strictPrefixes :
    ∀ {p r : Path}, r ∈ strictPrefixes p → r.length < p.length := by
  intro p
  induction p with
  | nil => intro r h; simp [strictPrefixes] at h
  | cons s rest ih =>
    intro r h
    simp only [strictPrefixes, List.mem_cons, List.mem_map] at h
    rcases h with h | ⟨a, ha, rfl⟩
    · subst h; simp
    · simpa using Nat.succ_lt_succ (ih ha)

theorem strictPrefixes_contains_false (p r : Path) (h : p.length ≤ r.length) :
    (strictPrefixes p).contains r = false := by
  by_contra hc
  rw [Bool.not_eq_false] at hc
  have hm : r ∈ strictPrefixes p := by simpa using hc
  exact absurd (length_lt_of_mem_strictPrefixes hm) (by omega)

theorem mkdirP_ok {fs : FS} {p : Path} (h : fs.dirs p = false) :
    mkdirP fs p = Except.ok
      { fs with dirs := fun r => r == p || (strictPrefixes p).contains r || fs.dirs r } := by
  simp [mkdirP, h]

/-- After `mkdirP fs p`, a path at least as long as `p` exists iff it is `p`
itself or existed before. -/
theorem mkdirP_dirs_long {fs : FS} {p : Path} (r : Path) (hlen : p.length ≤ r.length) :
    ((r == p || (strictPrefixes p).contains r || fs.dirs r) : Bool) =
      (r == p || fs.dirs r) := by
  rw [strictPrefixes_contains_false p r hlen, Bool.or_false]

theorem writeFile_dirs (fs : FS) (p : Path) (c : String) :
    (writeFile fs p c).dirs = fs.dirs := rfl

theorem appendFile_dirs (fs : FS) (p : Path) (c : String) :
    (appendFile fs p c).dirs = fs.dirs := by
  unfold appendFile
  cases readFile fs p <;> rfl

theorem logInfo_dirs (w : World) (msg : String) : (logInfo w msg).fs.dirs = w.fs.dirs := by
  cases hw : w.logCfg <;> simp [logInfo, hw, appendFile_dirs]

theorem logInfo_cfg (w : World) (msg : String) : (logInfo w msg).logCfg = w.logCfg := by
  cases hw : w.logCfg <;> simp [logInfo, hw]

theorem readFile_writeFile_self (fs : FS) (p : Path) (c : String) :
    readFile (writeFile fs p c) p = some c := by
  simp [readFile, writeFile]

theorem readFile_writeFile_other (fs : FS) {p r : Path} (c : String) (h : ¬(r = p)) :
    readFile (writeFile fs p c) r = readFile fs r := by
  simp [readFile, writeFile, h]

theorem digitChar_inj {d e : Nat} (hd : d < 10) (he : e < 10)
    (h : Nat.digitChar d = Nat.digitChar e) : d = e := by
  interval_cases d <;> interval_cases e <;> revert h <;> decide

theorem map_digitChar_inj :
    ∀ {l1 l2 : List Nat}, (∀ d ∈ l1, d < 10) → (∀ d ∈ l2, d < 10) →
      l1.map Nat.digitChar = l2.map Nat.digitChar → l1 = l2
  | [], [], _, _, _ => rfl
  | [], _ :: _, _, _, h => by simp at h
  | _ :: _, [], _, _, h => by simp at h
  | a :: l1, b :: l2, h1, h2, h => by
    simp only [List.map_cons, List.cons.injEq] at h
    have hab := digitChar_inj (h1 a (List.mem_cons_self a l1))
      (h2 b (List.mem_cons_self b l2)) h.1
    have htl := map_digitChar_inj (fun d hd => h1 d (List.mem_cons_of_mem a hd))
      (fun d hd => h2 d (List.mem_cons_of_mem b hd)) h.2
    rw [hab, htl]

theorem pyStrNat_inj {m n : Nat} (hm : 0 < m) (hn : 0 < n)
    (h : (pyStrNat m).data = (pyStrNat n).data) : m = n := by
  unfold pyStrNat at h
  rw [if_neg (Nat.pos_iff_ne_zero.mp hm), if_neg (Nat.pos_iff_ne_zero.mp hn)] at h
  have h2 : ((Nat.digits 10 m).map Nat.digitChar).reverse =
      ((Nat.digits 10 n).map Nat.digitChar).reverse := h
  have h4 := map_digitChar_inj
    (fun d hd => Nat.digits_lt_base (by norm_num) hd)
    (fun d hd => Nat.digits_lt_base (by norm_num) hd)
    (List.reverse_injective h2)
  have h5 := congrArg (Nat.ofDigits 10) h4
  rw [Nat.ofDigits_digits, Nat.ofDigits_digits] at h5
  exact_mod_cast h5

theorem isDigitCh_digitChar {d : Nat} (hd : d < 10) : isDigitCh (Nat.digitChar d) = true := by
  interval_cases d <;> rfl

theorem pyStrNat_all_digits (n : Nat) : ∀ c ∈ (pyStrNat n).data, isDigitCh c = true := by
  intro c hc
  unfold pyStrNat at hc
  by_cases hn : n = 0
  · rw [if_pos hn] at hc
    have : c = Nat.digitChar 0 := by simpa using hc
    rw [this]
    rfl
  · rw [if_neg hn] at hc
    have hc2 : c ∈ (Nat.digits 10 n).map Nat.digitChar := List.mem_reverse.mp hc
    rcases List.mem_map.mp hc2 with ⟨d, hd, rfl⟩
    exact isDigitCh_digitChar (Nat.digits_lt_base (by norm_num) hd)

theorem takeWhile_digits_append (b : Char) (rest : List Char) (hb : isDigitCh b = false) :
    ∀ l1 : List Char, (∀ c ∈ l1, isDigitCh c = true) →
      (l1 ++ b :: rest).takeWhile isDigitCh = l1
  | [], _ => by
    rw [List.nil_append, List.takeWhile_cons, hb]
    rfl
  | c :: l1, h => by
    rw [List.cons_append, List.takeWhile_cons, h c (List.mem_cons_self c l1),
      takeWhile_digits_append b rest hb l1 (fun x hx => h x (List.mem_cons_of_mem c hx))]
    rfl

/-- The week-folder naming rule is injective in the week index (for a fixed
topics list): the decimal index is recoverable from the name. -/
theorem mkWeekName_inj (topics : List String) {i j : Nat} (hi : 0 < i) (hj : 0 < j)
    (h : mkWeekName i topics = mkWeekName j topics) : i = j := by
  have hd := congrArg String.data h
  by_cases ht : topics = []
  · rw [mkWeekName, mkWeekName, if_pos ht, if_pos ht, String.data_append,
      String.data_append] at hd
    exact pyStrNat_inj hi hj (List.append_cancel_left hd)
  · rw [mkWeekName, mkWeekName, if_neg ht, if_neg ht] at hd
    simp only [String.data_append, List.append_assoc] at hd
    have hd2 := List.append_cancel_left hd
    simp only [List.cons_append, List.nil_append] at hd2
    have step := congrArg (List.takeWhile isDigitCh) hd2
    rw [takeWhile_digits_append _ _ (by decide) (pyStrNat i).data (pyStrNat_all_digits i),
      takeWhile_digits_append _ _ (by decide) (pyStrNat j).data (pyStrNat_all_digits j)] at step
    exact pyStrNat_inj hi hj step

theorem weekNames_nodup (weeks : Nat) (topics : List String) :
    (weekNames weeks topics).Nodup := by
  refine (List.nodup_range weeks).map_on ?_
  intro x _ y _ hxy
  have := mkWeekName_inj topics (Nat.succ_pos x) (Nat.succ_pos y) hxy
  omega

theorem weekNames_length (weeks : Nat) (topics : List String) :
    (weekNames weeks topics).length = weeks := by
  simp [weekNames]

/-- Specification of the week-folder creation loop: starting at a positive
week index with all the names it will create fresh, it succeeds, touches no
files, and creates exactly those names among the single-segment extensions of
the teaching-material directory. -/
theorem mkWeekDirs_spec (material_dir : Path) (topics : List String) :
    ∀ (count week : Nat) (fs : FS), 0 < week →
    (∀ idx, week ≤ idx → idx < week + count →
      fs.dirs (material_dir ++ [mkWeekName idx topics]) = false) →
    ∃ fs2, mkWeekDirs material_dir topics fs week count = Except.ok fs2 ∧
      fs2.files = fs.files ∧
      (∀ s, fs2.dirs (material_dir ++ [s]) =
        (((List.range count).map (fun j => mkWeekName (week + j) topics)).contains s ||
          fs.dirs (material_dir ++ [s]))) := by
  intro count
  induction count with
  | zero =>
    intro week fs _ _
    exact ⟨fs, rfl, rfl, fun s => by simp⟩
  | succ count ih =>
    intro week fs hweek hfresh
    have hd : fs.dirs (material_dir ++ [mkWeekName week topics]) = false :=
      hfresh week le_rfl (by omega)
    set target := material_dir ++ [mkWeekName week topics] with htarget
    set fs1 : FS :=
      { fs with dirs := fun r =>
          r == target || (strictPrefixes target).contains r || fs.dirs r }
      with hfs1
    have hext : ∀ s, fs1.dirs (material_dir ++ [s]) =
        ((s == mkWeekName week topics) || fs.dirs (material_dir ++ [s])) := by
      intro s
      rw [hfs1]
      show ((material_dir ++ [s]) == target
        || (strictPrefixes target).contains (material_dir ++ [s])
        || fs.dirs (material_dir ++ [s]))
        = ((s == mkWeekName week topics) || fs.dirs (material_dir ++ [s]))
      rw [htarget, strictPrefixes_contains_false _ _ (by simp), beq_append_singleton,
        Bool.or_false]
    have hfresh1 : ∀ idx, week + 1 ≤ idx → idx < (week + 1) + count →
        fs1.dirs (material_dir ++ [mkWeekName idx topics]) = false := by
      intro idx h1 h2
      rw [hext]
      have hne : (mkWeekName idx topics == mkWeekName week topics) = false := by
        rw [beq_eq_false_iff_ne]
        intro hh
        have := mkWeekName_inj topics (by omega) hweek hh
        omega
      rw [hne, hfresh idx (by omega) (by omega)]
      rfl
    obtain ⟨fs2, hrun, hfiles, hdirs⟩ := ih (week + 1) fs1 (by omega) hfresh1
    refine ⟨fs2, ?_, hfiles, ?_⟩
    · show mkWeekDirs material_dir topics fs week (count + 1) = Except.ok fs2
      unfold mkWeekDirs
      rw [← htarget, mkdirP_ok hd, ← hfs1]
      exact hrun
    · intro s
      have hshift : (List.range count).map (fun j => mkWeekName ((week + 1) + j) topics) =
          (List.range count).map (fun j => mkWeekName (week + (j + 1)) topics) := by
        apply List.map_congr_left
        intro j _
        have hjj : week + 1 + j = week + (j + 1) := by omega
        rw [hjj]
      have hsucc : ((fun j => mkWeekName (week + j) topics) ∘ Nat.succ)
          = (fun j => mkWeekName (week + (j + 1)) topics) := rfl
      have hcons : ∀ (a : String) (l : List String),
          (a :: l).contains s = ((s == a) || l.contains s) := fun a l => rfl
      rw [hdirs s, hext s, hshift, List.range_succ_eq_map, List.map_cons, List.map_map,
        hsucc, Nat.add_zero, hcons, Bool.or_assoc, Bool.or_left_comm]

/-- Specification of the subdirectory-creation loop of `structure`: with
pairwise-distinct fresh names it succeeds, touches no files, creates exactly
the requested directories among the single-segment extensions of `root2`, and
preserves every existing directory. -/
theorem mkdirSubdirs_spec (root2 : Path) :
    ∀ (sd : List String) (fs : FS), sd.Nodup →
    (∀ d ∈ sd, fs.dirs (root2 ++ [d]) = false) →
    ∃ fs2, mkdirSubdirs root2 fs sd = Except.ok fs2 ∧
      fs2.files = fs.files ∧
      (∀ s, fs2.dirs (root2 ++ [s]) = (sd.contains s || fs.dirs (root2 ++ [s]))) ∧
      (∀ r, fs.dirs r = true → fs2.dirs r = true) := by
  intro sd
  induction sd with
  | nil =>
    intro fs _ _
    exact ⟨fs, rfl, rfl, by simp [List.contains], fun r h => h⟩
  | cons d rest ih =>
    intro fs hnd hfresh
    have hd : fs.dirs (root2 ++ [d]) = false := hfresh d (List.mem_cons_self d rest)
    have hnd2 : rest.Nodup := (List.nodup_cons.mp hnd).2
    have hdrest : d ∉ rest := (List.nodup_cons.mp hnd).1
    set fs1 : FS :=
      { fs with dirs := fun r =>
          r == (root2 ++ [d]) || (strictPrefixes (root2 ++ [d])).contains r || fs.dirs r }
      with hfs1
    have hfresh1 : ∀ e ∈ rest, fs1.dirs (root2 ++ [e]) = false := by
      intro e he
      have hne : (e == d) = false := by
        simp only [beq_eq_false_iff_ne, ne_eq]
        intro hh; exact hdrest (hh ▸ he)
      have hlen : (root2 ++ [d]).length ≤ (root2 ++ [e]).length := by simp
      rw [hfs1]
      show ((root2 ++ [e]) == (root2 ++ [d])
        || (strictPrefixes (root2 ++ [d])).contains (root2 ++ [e])
        || fs.dirs (root2 ++ [e])) = false
      rw [strictPrefixes_contains_false _ _ hlen, beq_append_singleton, hne,
        hfresh e (List.mem_cons_of_mem d he)]
      rfl
    obtain ⟨fs2, hrun, hfiles, hdirs, hmono⟩ := ih fs1 hnd2 hfresh1
    refine ⟨fs2, ?_, hfiles, ?_, ?_⟩
    · show mkdirSubdirs root2 fs (d :: rest) = Except.ok fs2
      unfold mkdirSubdirs
      rw [mkdirP_ok hd]
      exact hrun
    · intro s
      rw [hdirs s]
      show (rest.contains s ||
        ((root2 ++ [s]) == (root2 ++ [d])
          || (strictPrefixes (root2 ++ [d])).contains (root2 ++ [s])
          || fs.dirs (root2 ++ [s]))) =
        ((d :: rest).contains s || fs.dirs (root2 ++ [s]))
      rw [strictPrefixes_contains_false _ _ (by simp), beq_append_singleton]
      show (rest.contains s || ((s == d) || false || fs.dirs (root2 ++ [s]))) =
        (((s == d) || rest.contains s) || fs.dirs (root2 ++ [s]))
      cases hsd : (s == d) <;> cases hr : rest.contains s <;>
        cases hb : fs.dirs (root2 ++ [s]) <;> rfl
    · intro r hr
      refine hmono r ?_
      rw [hfs1]
      show (r == (root2 ++ [d]) || (strictPrefixes (root2 ++ [d])).contains r || fs.dirs r) = true
      rw [hr]
      simp

theorem logInfo_some (fs : FS) (p : Path) (msg : String) (h : readFile fs p = none) :
    logInfo { fs := fs, logCfg := some p } msg
      = { fs := writeFile fs p (infoPfx ++ msg ++ nl), logCfg := some p } := by
  simp only [logInfo, appendFile, h]

theorem logInfo_some_append (fs : FS) (p : Path) (old msg : String)
    (h : readFile fs p = some old) :
    logInfo { fs := fs, logCfg := some p } msg
      = { fs := writeFile fs p (old ++ (infoPfx ++ msg ++ nl)), logCfg := some p } := by
  simp only [logInfo, appendFile, h]

theorem range_map_week (n : Nat) (topics : List String) :
    (List.range n).map (fun j => mkWeekName (1 + j) topics) = weekNames n topics := by
  unfold weekNames
  apply List.map_congr_left
  intro j _
  rw [Nat.add_comm]

/-! ### Claims -/

/-- C2: for every `weeks > 0` and `topics` that is empty or of length exactly
`weeks`, `teaching_structure` on a fresh teaching-material directory succeeds
and creates exactly `weeks` folders — the folders present are exactly the
`weekNames` list, which has length `weeks` and no duplicates, its `i`-th entry
being `'Week {i}'` (or `'Week {i} - {topics[i-1]}'` with topics); for
`weeks <= 0`, or a non-empty topics list whose length differs from `weeks`,
the precondition (`assert`) error is raised and the state is unchanged, so
zero folders are created. -/
theorem C2_teaching_structure (w : World) (m : ModuleState) (weeks : Int)
    (topics : List String) (ts : String)
    (hguard : check_method_execution w.fs m.root "teaching_structure" = false) :
    (0 < weeks → (topics = [] ∨ (topics.length : Int) = weeks) →
      (∀ s, w.fs.dirs ((m.root ++ ["Teaching Material"]) ++ [s]) = false) →
      (Module_teaching_structure w m weeks topics ts).1 = TeachResult.ok ∧
      (∀ s, dirExists (Module_teaching_structure w m weeks topics ts).2.fs
          ((m.root ++ ["Teaching Material"]) ++ [s])
        = (weekNames weeks.toNat topics).contains s) ∧
      (weekNames weeks.toNat topics).length = weeks.toNat ∧
      (weekNames weeks.toNat topics).Nodup) ∧
    ((weeks ≤ 0 ∨ (topics ≠ [] ∧ (topics.length : Int) ≠ weeks)) →
      Module_teaching_structure w m weeks topics ts = (TeachResult.assertError, w)) := by
  constructor
  · intro hw ht hfresh
    have hw2 : ¬(weeks ≤ 0) := by omega
    have ht2 : ¬(topics ≠ [] ∧ (topics.length : Int) ≠ weeks) := by
      rcases ht with h | h
      · exact fun hc => hc.1 h
      · exact fun hc => hc.2 h
    have hfresh2 : ∀ idx, 1 ≤ idx → idx < 1 + weeks.toNat →
        w.fs.dirs ((m.root ++ ["Teaching Material"]) ++ [mkWeekName idx topics]) = false :=
      fun idx _ _ => hfresh (mkWeekName idx topics)
    obtain ⟨fs2, hrun, hfiles, hdirs⟩ :=
      mkWeekDirs_spec (m.root ++ ["Teaching Material"]) topics weeks.toNat 1 w.fs
        one_pos hfresh2
    have hred : Module_teaching_structure w m weeks topics ts =
        (TeachResult.ok, logInfo { w with fs := fs2 } (deployedMsgTeaching ts)) := by
      simp only [Module_teaching_structure]
      rw [hguard, if_neg Bool.false_ne_true, if_neg hw2, if_neg ht2, hrun]
    rw [hred]
    refine ⟨rfl, ?_, weekNames_length _ _, weekNames_nodup _ _⟩
    intro s
    show (logInfo { w with fs := fs2 } (deployedMsgTeaching ts)).fs.dirs
      ((m.root ++ ["Teaching Material"]) ++ [s]) = (weekNames weeks.toNat topics).contains s
    rw [logInfo_dirs]
    show fs2.dirs ((m.root ++ ["Teaching Material"]) ++ [s])
      = (weekNames weeks.toNat topics).contains s
    rw [hdirs s, hfresh s, Bool.or_false, range_map_week]
  · intro hbad
    simp only [Module_teaching_structure]
    rw [hguard, if_neg Bool.false_ne_true]
    by_cases hw0 : weeks ≤ 0
    · rw [if_pos hw0]
    · rcases hbad with h | h
      · exact absurd h hw0
      · rw [if_neg hw0, if_pos h]

/-- C1: on a fresh unit (guard silent, target directory and its contents not
on disk, process logging unconfigured), the first `structure` call succeeds,
narrows the root to `root/'{code} {semester} {year}'`, and leaves exactly the
configured subdirectories (`default_sub_dirs`) present under the new root; a
second `structure` call on the resulting unit raises the Already-completed
`RuntimeError` and changes nothing. -/
theorem C1_structure_once (w : World) (m : ModuleState) (ts1 ts2 ts3 ts4 : String)
    (hguard : check_method_execution w.fs m.root "structure" = false)
    (hroot2 : w.fs.dirs (moduleRoot2 m) = false)
    (hsub : ∀ s, w.fs.dirs (moduleRoot2 m ++ [s]) = false)
    (hlog : w.fs.files (moduleRoot2 m ++ [logFileName]) = none)
    (hcfg : w.logCfg = none) :
    (Module_structure w m default_sub_dirs ts1 ts2).1 = StructResult.ok ∧
    (Module_structure w m default_sub_dirs ts1 ts2).2.2.root = moduleRoot2 m ∧
    dirExists (Module_structure w m default_sub_dirs ts1 ts2).2.1.fs (moduleRoot2 m) = true ∧
    (∀ s, dirExists (Module_structure w m default_sub_dirs ts1 ts2).2.1.fs (moduleRoot2 m ++ [s])
        = default_sub_dirs.contains s) ∧
    Module_structure (Module_structure w m default_sub_dirs ts1 ts2).2.1
        (Module_structure w m default_sub_dirs ts1 ts2).2.2 default_sub_dirs ts3 ts4
      = (StructResult.runtimeError,
        (Module_structure w m default_sub_dirs ts1 ts2).2.1,
        (Module_structure w m default_sub_dirs ts1 ts2).2.2) := by
  have hfs1sub : ∀ d,
      (({ w.fs with dirs := fun r => r == moduleRoot2 m
            || (strictPrefixes (moduleRoot2 m)).contains r || w.fs.dirs r } : FS)).dirs
        (moduleRoot2 m ++ [d]) = false := by
    intro d
    show ((moduleRoot2 m ++ [d]) == moduleRoot2 m
      || (strictPrefixes (moduleRoot2 m)).contains (moduleRoot2 m ++ [d])
      || w.fs.dirs (moduleRoot2 m ++ [d])) = false
    rw [beq_append_singleton_self, strictPrefixes_contains_false _ _ (by simp), hsub d]
    rfl
  obtain ⟨fs2, hrun, hfiles, hdirs, hmono⟩ :=
    mkdirSubdirs_spec (moduleRoot2 m) default_sub_dirs _ (by decide) (fun d _ => hfs1sub d)
  have h1 : basicConfig { w with fs := fs2 } (moduleRoot2 m ++ [logFileName])
      = { fs := fs2, logCfg := some (moduleRoot2 m ++ [logFileName]) } := by
    unfold basicConfig
    rw [hcfg]
  have hr1 : readFile fs2 (moduleRoot2 m ++ [logFileName]) = none := by
    unfold readFile
    rw [hfiles]
    exact hlog
  have h2 := logInfo_some fs2 (moduleRoot2 m ++ [logFileName])
    (createdMsg m.name m.code ts1 default_sub_dirs) hr1
  have h3 := logInfo_some_append
    (writeFile fs2 (moduleRoot2 m ++ [logFileName])
      (infoPfx ++ createdMsg m.name m.code ts1 default_sub_dirs ++ nl))
    (moduleRoot2 m ++ [logFileName])
    (infoPfx ++ createdMsg m.name m.code ts1 default_sub_dirs ++ nl)
    (deployedMsgStructure ts2)
    (readFile_writeFile_self fs2 (moduleRoot2 m ++ [logFileName])
      (infoPfx ++ createdMsg m.name m.code ts1 default_sub_dirs ++ nl))
  have hred : Module_structure w m default_sub_dirs ts1 ts2 =
      (StructResult.ok,
        { fs := writeFile
            (writeFile fs2 (moduleRoot2 m ++ [logFileName])
              (infoPfx ++ createdMsg m.name m.code ts1 default_sub_dirs ++ nl))
            (moduleRoot2 m ++ [logFileName])
            ((infoPfx ++ createdMsg m.name m.code ts1 default_sub_dirs ++ nl) ++
              (infoPfx ++ deployedMsgStructure ts2 ++ nl)),
          logCfg := some (moduleRoot2 m ++ [logFileName]) },
        { m with root := moduleRoot2 m }) := by
    simp only [Module_structure]
    rw [hguard, if_neg Bool.false_ne_true]
    simp only [mkdirP_ok hroot2]
    simp only [hrun]
    rw [h1, h2, h3]
  have hcheck2 : check_method_execution
      (writeFile
        (writeFile fs2 (moduleRoot2 m ++ [logFileName])
          (infoPfx ++ createdMsg m.name m.code ts1 default_sub_dirs ++ nl))
        (moduleRoot2 m ++ [logFileName])
        ((infoPfx ++ createdMsg m.name m.code ts1 default_sub_dirs ++ nl) ++
          (infoPfx ++ deployedMsgStructure ts2 ++ nl)))
      (moduleRoot2 m) "structure" = true := by
    unfold check_method_execution
    rw [readFile_writeFile_self]
    refine strContains_embed ((infoPfx ++ createdMsg m.name m.code ts1 default_sub_dirs
      ++ nl).data ++ infoPfx.data) ((" " ++ ts2 ++ "." ++ nl).data) ?_
    simp only [deployedMsgStructure, markerPat, String.data_append, List.append_assoc,
      List.cons_append, List.nil_append]
  refine ⟨by rw [hred], by rw [hred], ?_, ?_, ?_⟩
  · rw [hred]
    show (writeFile _ _ _).dirs (moduleRoot2 m) = true
    rw [writeFile_dirs, writeFile_dirs]
    refine hmono _ ?_
    show ((moduleRoot2 m == moduleRoot2 m)
      || (strictPrefixes (moduleRoot2 m)).contains (moduleRoot2 m)
      || w.fs.dirs (moduleRoot2 m)) = true
    simp
  · intro s
    rw [hred]
    show (writeFile _ _ _).dirs (moduleRoot2 m ++ [s]) = default_sub_dirs.contains s
    rw [writeFile_dirs, writeFile_dirs, hdirs s, hfs1sub s, Bool.or_false]
  · rw [hred]
    simp only [Module_structure]
    rw [hcheck2, if_pos rfl]

/-- Witness for C2: three default-named week folders are created for
`weeks = 3` on a fresh unit, and `weeks = 0` is rejected with the precondition
error and no state change. -/
theorem C2_teaching_structure_witness :
    (Module_teaching_structure sampleWorld sampleModule 3 [] "2024-01-01").1 = TeachResult.ok ∧
    Module_teaching_structure sampleWorld sampleModule 0 [] "2024-01-01"
      = (TeachResult.assertError, sampleWorld) :=
  ⟨((C2_teaching_structure sampleWorld sampleModule 3 [] "2024-01-01" rfl).1
      (by decide) (Or.inl rfl) (fun _ => rfl)).1,
    (C2_teaching_structure sampleWorld sampleModule 0 [] "2024-01-01" rfl).2
      (Or.inl (by decide))⟩

/-- Witness for C1: the sample unit structures once successfully and the
`Teaching Material` subdirectory is present under the narrowed root. -/
theorem C1_structure_once_witness :
    (Module_structure sampleWorld sampleModule default_sub_dirs "T1" "T2").1
        = StructResult.ok ∧
    dirExists (Module_structure sampleWorld sampleModule default_sub_dirs "T1" "T2").2.1.fs
      (moduleRoot2 sampleModule ++ ["Teaching Material"]) = true := by
  have h := C1_structure_once sampleWorld sampleModule "T1" "T2" "T3" "T4" rfl rfl
    (fun _ => rfl) rfl rfl
  refine ⟨h.1, ?_⟩
  rw [h.2.2.2.1 "Teaching Material"]
  rfl

/-- Counterexample to C3 as stated: after one record of the operation name
`embedName` — whose marker line embeds the marker pattern of the distinct
name `"a"` — the guard reports `"a"` as already run. -/
theorem C3_counterexample :
    check_method_execution (record_method recordWorld embedName "2024").fs [] "a" = true ∧
    "a" ≠ embedName := by
  exact ⟨rfl, by decide⟩

/-- C3 amended: on a directory with no log file the guard returns false for
every operation name; after one record of operation `X` it returns true for
`X`, and false for any name `Y` whose marker pattern does not occur in the
recorded line (in particular for every other operation name the program
uses — the original claim fails only for crafted names whose marker the
recorded line embeds, see the counterexample). -/
theorem C3_has_run_amended (w : World) (root : Path) (X Y ts : String)
    (hcfg : w.logCfg = some (root ++ [logFileName]))
    (hfresh : readFile w.fs (root ++ [logFileName]) = none) :
    (∀ name, check_method_execution w.fs root name = false) ∧
    check_method_execution (record_method w X ts).fs root X = true ∧
    (strContains (infoPfx ++ (q ++ X ++ q ++ " method deployed on " ++ ts ++ ".") ++ nl)
        (markerPat Y) = false →
      check_method_execution (record_method w X ts).fs root Y = false) := by
  have hrec : (record_method w X ts).fs
      = writeFile w.fs (root ++ [logFileName])
          (infoPfx ++ (q ++ X ++ q ++ " method deployed on " ++ ts ++ ".") ++ nl) := by
    simp only [record_method, logInfo, appendFile, hcfg, hfresh]
  refine ⟨?_, ?_, ?_⟩
  · intro name
    unfold check_method_execution
    rw [hfresh]
  · unfold check_method_execution
    rw [hrec, readFile_writeFile_self]
    refine strContains_embed infoPfx.data ((" " ++ ts ++ "." ++ nl).data) ?_
    simp only [markerPat, String.data_append, List.append_assoc,
      List.cons_append, List.nil_append]
  · intro hnc
    unfold check_method_execution
    rw [hrec, readFile_writeFile_self]
    exact hnc

/-- Witness for C3 (amended): fresh directory reports nothing run; after
recording `structure`, the guard reports `structure` run and
`teaching_structure` not run. -/
theorem C3_has_run_amended_witness :
    (∀ name, check_method_execution recordWorld.fs [] name = false) ∧
    check_method_execution (record_method recordWorld "structure" "2024-01-01").fs []
      "structure" = true ∧
    check_method_execution (record_method recordWorld "structure" "2024-01-01").fs []
      "teaching_structure" = false := by
  have h := C3_has_run_amended recordWorld [] "structure" "teaching_structure"
    "2024-01-01" rfl rfl
  exact ⟨h.1, h.2.1, h.2.2 (by decide)⟩

/-- C4 (code bug): constructing the Midterm/Exam assessment raises `TypeError`
(the `super().__init__` call supplies three positional arguments where
`Module.__init__` requires five), so the claimed directory tree can never be
produced; moreover, even for an assessment object whose root is the structured
parent unit's root, `Assessment.structure` raises the Already-completed
`RuntimeError`, because the inherited guard finds the unit's own `structure`
marker in the unit's log. -/
theorem C4_assessment_structure_bug :
    Assessment_init "Exam" "Midterm" "2024-05-01" "Software Engineering" "CS4013"
        "Dr Smith" "30" "2024" = Except.error PyErr.typeError ∧
    (Assessment_structure
        (Module_structure sampleWorld sampleModule default_sub_dirs "T1" "T2").2.1
        { assessment_type := "Exam", name := "Midterm", code := "CS4013",
          root := (Module_structure sampleWorld sampleModule default_sub_dirs "T1" "T2").2.2.root }
        "T3" "T4").1 = StructResult.runtimeError := by
  exact ⟨rfl, rfl⟩

/-- C5: for every input, `Assessment.__init__` raises `TypeError` before any
field is set — its `super().__init__(module_name, module_code, module_leader)`
call binds only three positional arguments against the five required
parameters of `Module.__init__` — so no `Assessment` instance can be created
through the public constructor. -/
theorem C5_assessment_init_type_error (assessment_type name due_date module_name
    module_code module_leader percentage_of_module module_year : String) :
    Assessment_init assessment_type name due_date module_name module_code module_leader
      percentage_of_module module_year = Except.error PyErr.typeError := by
  have h : missingArgs Module_init_sig 3 ≠ [] := by decide
  unfold Assessment_init
  rw [if_pos h]

/-- C6: the confirmation prompt of `copy_documents` fires exactly when some
incoming file name already exists in the destination and the guard shows a
prior run; declining the whole-batch prompt aborts with the state unchanged
(zero files copied, guard not updated); when the guard shows no prior run the
batch is copied with no prompt, silently overwriting a colliding destination
name with the source content. -/
theorem C6_copy_documents (w : World) (m : ModuleState) (documents : List Path)
    (sub_dir_name answer ts : String) :
    ((Module_copy_documents w m documents sub_dir_name answer ts).prompted
      = (!((documents.filter (fun doc =>
            fileExists w.fs ((m.root ++ [sub_dir_name]) ++ [pathName doc]))).map pathName).isEmpty
          && check_method_execution w.fs m.root "copy_documents")) ∧
    ((!((documents.filter (fun doc =>
            fileExists w.fs ((m.root ++ [sub_dir_name]) ++ [pathName doc]))).map pathName).isEmpty
          && check_method_execution w.fs m.root "copy_documents") = true →
      pyLower (pyStrip (if pyLower (pyStrip answer) = "" then "n"
        else pyLower (pyStrip answer))) ≠ "y" →
      Module_copy_documents w m documents sub_dir_name answer ts
        = { prompted := true, canceled := true, world := w }) ∧
    (check_method_execution w.fs m.root "copy_documents" = false →
      Module_copy_documents w m documents sub_dir_name answer ts
        = { prompted := false, canceled := false,
            world := logInfo { w with fs := copyAll (m.root ++ [sub_dir_name]) w.fs documents }
              (deployedMsgCopy ts documents) }) ∧
    (check_method_execution w.fs m.root "copy_documents" = false → w.logCfg = none →
      ∀ doc, readFile (Module_copy_documents w m [doc] sub_dir_name answer ts).world.fs
          ((m.root ++ [sub_dir_name]) ++ [pathName doc])
        = some ((w.fs.files doc).getD "")) := by
  have hsilent : ∀ docs : List Path,
      check_method_execution w.fs m.root "copy_documents" = false →
      Module_copy_documents w m docs sub_dir_name answer ts
        = { prompted := false, canceled := false,
            world := logInfo { w with fs := copyAll (m.root ++ [sub_dir_name]) w.fs docs }
              (deployedMsgCopy ts docs) } := by
    intro docs hX
    have hC : ¬((!((docs.filter (fun doc =>
          fileExists w.fs ((m.root ++ [sub_dir_name]) ++ [pathName doc]))).map pathName).isEmpty
        && check_method_execution w.fs m.root "copy_documents") = true) := by
      rw [hX, Bool.and_false]
      exact Bool.false_ne_true
    simp only [Module_copy_documents]
    rw [if_neg hC]
  refine ⟨?_, ?_, hsilent documents, ?_⟩
  · simp only [Module_copy_documents]
    by_cases hC : (!((documents.filter (fun doc =>
          fileExists w.fs ((m.root ++ [sub_dir_name]) ++ [pathName doc]))).map pathName).isEmpty
        && check_method_execution w.fs m.root "copy_documents") = true
    · rw [if_pos hC, hC]
      split <;> split <;> rfl
    · rw [if_neg hC]
      simp only [Bool.not_eq_true] at hC
      exact hC.symm
  · intro hC hno
    simp only [Module_copy_documents]
    rw [if_pos hC, if_pos hno]
  · intro hX hcfg doc
    rw [hsilent [doc] hX]
    have hfs : (logInfo { w with fs := copyAll (m.root ++ [sub_dir_name]) w.fs [doc] }
        (deployedMsgCopy ts [doc])).fs = copyAll (m.root ++ [sub_dir_name]) w.fs [doc] := by
      simp only [logInfo, hcfg]
    rw [hfs]
    simp only [copyAll]
    exact readFile_writeFile_self _ _ _

/-- Witness for C6: a fresh unit copies without prompting and the destination
receives the source content; in the prompting scenario (prior run recorded and
a colliding name), answering `"n"` cancels with the state unchanged. -/
theorem C6_copy_documents_witness :
    (Module_copy_documents copySourceWorld sampleModule [["src", "f.txt"]]
        "Module Documents" "" "T").prompted = false ∧
    readFile (Module_copy_documents copySourceWorld sampleModule [["src", "f.txt"]]
        "Module Documents" "" "T").world.fs
      ((sampleModule.root ++ ["Module Documents"]) ++ [pathName ["src", "f.txt"]])
      = some ((copySourceWorld.fs.files ["src", "f.txt"]).getD "") ∧
    Module_copy_documents promptWorld sampleModule [["src", "f.txt"]]
        "Module Documents" "n" "T"
      = { prompted := true, canceled := true, world := promptWorld } := by
  have h1 := C6_copy_documents copySourceWorld sampleModule [["src", "f.txt"]]
    "Module Documents" "" "T"
  have h2 := C6_copy_documents promptWorld sampleModule [["src", "f.txt"]]
    "Module Documents" "n" "T"
  refine ⟨?_, h1.2.2.2 rfl rfl ["src", "f.txt"], h2.2.1 (by decide) (by decide)⟩
  rw [h1.1]
  decide

/-- Counterexample to C7 as stated: when the pre-existing target directory
itself carries a log recording a completed `structure` run, the aborting call
leaves `has_run` true afterwards — the root has been reassigned into the
pre-existing directory and the guard now reads that directory's log. -/
theorem C7_counterexample :
    (Module_structure preExistingWorld sampleModule default_sub_dirs "T1" "T2").1
        = StructResult.printedExists ∧
    check_method_execution
        (Module_structure preExistingWorld sampleModule default_sub_dirs "T1" "T2").2.1.fs
        (Module_structure preExistingWorld sampleModule default_sub_dirs "T1" "T2").2.2.root
        "structure" = true := by
  exact ⟨rfl, rfl⟩

/-- C7 amended: when the guard has not fired but the target directory exists
on disk, `structure` reports the Already-exists-on-disk condition distinctly
from Already-completed (`printedExists`, not the raised `runtimeError`),
leaves the filesystem and log unchanged, and — provided the pre-existing
directory's own log does not record the operation — `has_run` at the (now
reassigned) root remains false afterwards. -/
theorem C7_already_on_disk_amended (w : World) (m : ModuleState)
    (sub_dirs : List String) (ts1 ts2 : String)
    (hguard : check_method_execution w.fs m.root "structure" = false)
    (hexists : w.fs.dirs (moduleRoot2 m) = true)
    (hnolog : check_method_execution w.fs (moduleRoot2 m) "structure" = false) :
    Module_structure w m sub_dirs ts1 ts2
      = (StructResult.printedExists, w, { m with root := moduleRoot2 m }) ∧
    check_method_execution (Module_structure w m sub_dirs ts1 ts2).2.1.fs
      (Module_structure w m sub_dirs ts1 ts2).2.2.root "structure" = false := by
  have hmk : mkdirP w.fs (moduleRoot2 m) = Except.error () := by
    unfold mkdirP
    rw [hexists, if_pos rfl]
  have hr : Module_structure w m sub_dirs ts1 ts2
      = (StructResult.printedExists, w, { m with root := moduleRoot2 m }) := by
    simp only [Module_structure]
    rw [hguard, if_neg Bool.false_ne_true]
    simp only [hmk]
  exact ⟨hr, by rw [hr]; exact hnolog⟩

/-- Witness for C7 (amended): the sample unit against a pre-existing empty
target directory aborts with `printedExists`, an unchanged world, and
`has_run` false afterwards. -/
theorem C7_already_on_disk_amended_witness :
    Module_structure preExistingNoLogWorld sampleModule default_sub_dirs "T1" "T2"
      = (StructResult.printedExists, preExistingNoLogWorld,
         { sampleModule with root := moduleRoot2 sampleModule }) ∧
    check_method_execution
      (Module_structure preExistingNoLogWorld sampleModule default_sub_dirs "T1" "T2").2.1.fs
      (Module_structure preExistingNoLogWorld sampleModule default_sub_dirs "T1" "T2").2.2.root
      "structure" = false :=
  C7_already_on_disk_amended preExistingNoLogWorld sampleModule default_sub_dirs
    "T1" "T2" rfl rfl rfl

/-- Counterexample to C8 as stated: a structuring call that aborts because the
target directory already exists on disk nevertheless reassigns `root`. -/
theorem C8_counterexample :
    (Module_structure preExistingWorld sampleModule default_sub_dirs "T1" "T2").1
        = StructResult.printedExists ∧
    (Module_structure preExistingWorld sampleModule default_sub_dirs "T1" "T2").2.2.root
        ≠ sampleModule.root := by
  exact ⟨rfl, by decide⟩

/-- C8 amended: `root` is reassigned to `root/'{code} {semester} {year}'` by
every `structure` call that passes the guard — including a call that aborts on
the Already-exists-on-disk condition — and once the guard reports a prior run,
a `structure` call changes nothing (so after a successful structuring the root
is never reassigned again). -/
theorem C8_root_reassignment_amended (w : World) (m : ModuleState)
    (sub_dirs : List String) (ts1 ts2 : String) :
    (check_method_execution w.fs m.root "structure" = false →
      (Module_structure w m sub_dirs ts1 ts2).2.2.root = moduleRoot2 m) ∧
    (check_method_execution w.fs m.root "structure" = true →
      Module_structure w m sub_dirs ts1 ts2 = (StructResult.runtimeError, w, m)) := by
  constructor
  · intro hg
    simp only [Module_structure]
    rw [hg, if_neg Bool.false_ne_true]
    cases hmk : mkdirP w.fs (moduleRoot2 m) with
    | error e => rfl
    | ok fs1 =>
      simp only []
      cases hmks : mkdirSubdirs (moduleRoot2 m) fs1 sub_dirs with
      | error fsP => rfl
      | ok fs2 => rfl
  · intro hg
    simp only [Module_structure]
    rw [hg, if_pos rfl]

/-- Witness for C8 (amended): on the fresh sample world the root is narrowed,
and on a world whose log already records `structure` the call is a no-op
`RuntimeError`. -/
theorem C8_root_reassignment_amended_witness :
    (Module_structure sampleWorld sampleModule default_sub_dirs "T1" "T2").2.2.root
        = moduleRoot2 sampleModule ∧
    Module_structure guardFiredWorld sampleModule default_sub_dirs "T1" "T2"
      = (StructResult.runtimeError, guardFiredWorld, sampleModule) :=
  ⟨(C8_root_reassignment_amended sampleWorld sampleModule default_sub_dirs "T1" "T2").1 rfl,
   (C8_root_reassignment_amended guardFiredWorld sampleModule default_sub_dirs "T1" "T2").2 rfl⟩

/-- C9: for an assessment whose guard has not recorded `graders_list` (and
whose logging is not bound to the artifact path itself), writing the roster
`["A","B","C"]` produces `<root>/'Graders List.txt'` whose content reads back
as the same three names in order, one per line; any roster — duplicates or the
empty sequence included — is accepted without validation, and the call returns
the artifact path. -/
theorem C9_graders_roundtrip (w : World) (a : AssessmentState) (ts : String)
    (hguard : check_method_execution w.fs a.root "graders_list" = false)
    (hcfg : w.logCfg ≠ some (a.root ++ ["Graders List.txt"])) :
    (∃ w2, Assessment_graders_list w a ["A", "B", "C"] ts
        = Except.ok (w2, a.root ++ ["Graders List.txt"]) ∧
      readFile w2.fs (a.root ++ ["Graders List.txt"])
        = some (gradersContent ["A", "B", "C"])) ∧
    readBackLines (gradersContent ["A", "B", "C"]) = ["A", "B", "C"] ∧
    (∀ graders, ∃ w3, Assessment_graders_list w a graders ts
        = Except.ok (w3, a.root ++ ["Graders List.txt"])) := by
  have hgen : ∀ graders, Assessment_graders_list w a graders ts
      = Except.ok
          (logInfo { w with fs := (writeFile w.fs (a.root ++ ["Graders List.txt"])
              (gradersContent graders)) } (deployedMsgGraders ts),
            a.root ++ ["Graders List.txt"]) := by
    intro graders
    simp only [Assessment_graders_list]
    rw [hguard, if_neg Bool.false_ne_true]
  have hread : ∀ graders, readFile
      (logInfo { w with fs := (writeFile w.fs (a.root ++ ["Graders List.txt"])
          (gradersContent graders)) } (deployedMsgGraders ts)).fs
      (a.root ++ ["Graders List.txt"]) = some (gradersContent graders) := by
    intro graders
    cases hw : w.logCfg with
    | none =>
      simp only [logInfo, hw]
      exact readFile_writeFile_self _ _ _
    | some p =>
      have hne : ¬(a.root ++ ["Graders List.txt"] = p) := by
        intro hh
        exact hcfg (by rw [hw, hh])
      simp only [logInfo, hw]
      cases hrp : readFile (writeFile w.fs (a.root ++ ["Graders List.txt"])
          (gradersContent graders)) p with
      | none =>
        simp only [appendFile, hrp]
        rw [readFile_writeFile_other _ _ hne, readFile_writeFile_self]
      | some old =>
        simp only [appendFile, hrp]
        rw [readFile_writeFile_other _ _ hne, readFile_writeFile_self]
  exact ⟨⟨_, hgen _, hread _⟩, by decide, fun graders => ⟨_, hgen graders⟩⟩

/-- Witness for C9: the sample assessment round-trips the roster
`["A","B","C"]`. -/
theorem C9_graders_roundtrip_witness :
    (∃ w2, Assessment_graders_list sampleWorld sampleAssessment ["A", "B", "C"] "T"
        = Except.ok (w2, sampleAssessment.root ++ ["Graders List.txt"]) ∧
      readFile w2.fs (sampleAssessment.root ++ ["Graders List.txt"])
        = some (gradersContent ["A", "B", "C"])) ∧
    readBackLines (gradersContent ["A", "B", "C"]) = ["A", "B", "C"] := by
  have h := C9_graders_roundtrip sampleWorld sampleAssessment "T" rfl (by decide)
  exact ⟨h.1, h.2.1⟩

set_option maxRecDepth 8192 in
/-- Counterexample to C10 as stated: after one successful draft `structure`
run the draft guard reports the operation *not* run (it reads
`.module_log.txt` while the log was written to `module_log.txt`), whereas the
packaged guard on the same resulting state reports it run. -/
theorem C10_counterexample :
    (draft_Module_structure sampleWorld sampleModule default_sub_dirs "T1" "T2").1
        = StructResult.ok ∧
    draft_check_method_execution
        (draft_Module_structure sampleWorld sampleModule default_sub_dirs "T1" "T2").2.1.fs
        (draft_Module_structure sampleWorld sampleModule default_sub_dirs "T1" "T2").2.2.root
        "structure" = false ∧
    check_method_execution
        (draft_Module_structure sampleWorld sampleModule default_sub_dirs "T1" "T2").2.1.fs
        (draft_Module_structure sampleWorld sampleModule default_sub_dirs "T1" "T2").2.2.root
        "structure" = true := by
  exact ⟨rfl, rfl, rfl⟩

/-- C10 amended: the draft and packaged guard checks implement the same
substring scan and agree on every directory state in which the file the draft
reads (`.module_log.txt`) and the file the packaged guard reads
(`module_log.txt`) have the same content or absence — in particular on every
fresh directory; they are not equivalent after a successful `structure` run,
which writes only `module_log.txt` (see the counterexample). -/
theorem C10_guard_agreement_amended (fs : FS) (root : Path) (name : String)
    (h : readFile fs (root ++ [draftLogFileName]) = readFile fs (root ++ [logFileName])) :
    draft_check_method_execution fs root name = check_method_execution fs root name := by
  unfold draft_check_method_execution check_method_execution
  rw [h]

/-- Witness for C10 (amended): on the empty filesystem the two guards agree. -/
theorem C10_guard_agreement_amended_witness :
    draft_check_method_execution emptyFS ["base"] "structure"
      = check_method_execution emptyFS ["base"] "structure" :=
  C10_guard_agreement_amended emptyFS ["base"] "structure" rfl

end ULTH
